import Mathlib

/-!
Verification of the track-selection and playlist-update core of a Spotify
playlist-automation bot (`app/track_selector.py`, `app/playlist_manager.py`).

The Python code works on free-form dicts; the embedding models each dict shape
as a structure whose `Option` fields correspond to keys that the code reads
with `.get` (absent key tolerated) and whose plain fields correspond to keys
the code reads with a raising subscript.  Python floats are modelled as `ℚ`,
raised exceptions as `Except String`.  `list.sort(key=..., reverse=True)` is a
stable descending sort by key; `sort_desc` below is the structurally recursive
stable descending insertion sort, which computes the same list.
-/

/-- Stable descending insertion: place `t` before the first element whose key
is `≤` the key of `t`, so that elements with equal keys keep their original
relative order (Python `list.sort(key, reverse=True)` semantics). -/
def insert_desc (key : α → ℚ) (t : α) : List α → List α
  | [] => [t]
  | x :: xs => if key x ≤ key t then t :: x :: xs else x :: insert_desc key t xs

/-- Stable descending sort by `key`, the model of
`list.sort(key=..., reverse=True)`. -/
def sort_desc (key : α → ℚ) : List α → List α
  | [] => []
  | t :: ts => insert_desc key t (sort_desc key ts)

theorem mem_insert_desc (key : α → ℚ) (t : α) (l : List α) (x : α) :
    x ∈ insert_desc key t l ↔ x = t ∨ x ∈ l := by
  induction l with
  | nil => simp [insert_desc]
  | cons y ys ih =>
    simp only [insert_desc]
    split
    · simp
    · simp only [List.mem_cons, ih]
      tauto

theorem mem_sort_desc (key : α → ℚ) (l : List α) (x : α) :
    x ∈ sort_desc key l ↔ x ∈ l := by
  induction l with
  | nil => simp [sort_desc]
  | cons y ys ih => simp [sort_desc, mem_insert_desc, ih]

theorem pairwise_insert_desc (key : α → ℚ) (t : α) (l : List α)
    (h : List.Pairwise (fun a b => key b ≤ key a) l) :
    List.Pairwise (fun a b => key b ≤ key a) (insert_desc key t l) := by
  induction l with
  | nil => simp [insert_desc]
  | cons y ys ih =>
    simp only [insert_desc]
    rcases List.pairwise_cons.mp h with ⟨hy, hys⟩
    split
    · refine List.Pairwise.cons ?_ (List.Pairwise.cons hy hys)
      intro b hb
      rcases List.mem_cons.mp hb with rfl | hb
      · assumption
      · exact le_trans (hy b hb) (by assumption)
    · refine List.Pairwise.cons ?_ (ih hys)
      intro b hb
      rcases (mem_insert_desc key t ys b).mp hb with rfl | hb
      · exact le_of_not_le (by assumption)
      · exact hy b hb

theorem pairwise_sort_desc (key : α → ℚ) (l : List α) :
    List.Pairwise (fun a b => key b ≤ key a) (sort_desc key l) := by
  induction l with
  | nil => simp [sort_desc]
  | cons y ys ih => exact pairwise_insert_desc key y _ ih

/-! ### Diversity allocator (`TrackSelector.apply_genre_allocation`) -/

/-- A track as seen by the allocator: `track.get('genre', 'Other')` is an
optional field, and `score` is a required field because the allocator's sort
key is the raising subscript `x['score']` (every track reaching the allocator
has been assigned a score by the scorer). -/
structure AllocTrack where
  name : Option String := none
  genre : Option String := none
  score : ℚ
deriving DecidableEq

/-- Insert `t` into the genre buckets, preserving Python dict insertion order
(`genre_counts[genre].append(track)` with first-occurrence key order). -/
def add_to_genre (gs : List (String × List AllocTrack)) (g : String) (t : AllocTrack) :
    List (String × List AllocTrack) :=
  match gs with
  | [] => [(g, [t])]
  | (k, ts) :: rest =>
      if k = g then (k, ts ++ [t]) :: rest else (k, ts) :: add_to_genre rest g t

/-- The `genre_counts` dict: buckets keyed by `track.get('genre', 'Other')`,
in first-occurrence order, each bucket in input order. -/
def group_by_genre (tracks : List AllocTrack) : List (String × List AllocTrack) :=
  tracks.foldl (fun gs t => add_to_genre gs (t.genre.getD "Other") t) []

/-- Floor policy: `floor_count = max(1, int(target_size * pct / 100))` (the
`int()` truncation toward zero of the exact ratio is `Int.tdiv`), then up to
`floor_count` tracks from each genre bucket. -/
def floor_allocation (genre_counts : List (String × List AllocTrack))
    (target_size : Nat) (pct : Int) : List AllocTrack :=
  let floor_count := (max 1 (Int.tdiv ((target_size : Int) * pct) 100)).toNat
  genre_counts.flatMap (fun g => g.2.take floor_count)

/-- Even-distribution policy: all tracks if they fit; otherwise
`max(1, target_size // bucket_count)` from each bucket, topped up with the
highest-scoring leftovers.  (`bucket_count` is nonzero whenever the input is
nonempty, which the caller guarantees.) -/
def even_allocation (genre_counts : List (String × List AllocTrack))
    (target_size : Nat) : List AllocTrack :=
  let available_tracks := (genre_counts.map (fun g => g.2.length)).sum
  if available_tracks ≤ target_size then
    genre_counts.flatMap (fun g => g.2)
  else
    let tracks_per_genre := max 1 (target_size / genre_counts.length)
    let allocated := genre_counts.flatMap (fun g => g.2.take tracks_per_genre)
    if allocated.length < target_size then
      let remaining := genre_counts.flatMap (fun g => g.2.drop tracks_per_genre)
      let remaining_sorted := sort_desc (fun t => t.score) remaining
      allocated ++ remaining_sorted.take (target_size - allocated.length)
    else
      allocated

/-- `TrackSelector.apply_genre_allocation`.  Python truthiness of the
`diversity_floor_pct` argument: `if diversity_floor_pct:` takes the floor
branch except when the argument is `None` or `0`. -/
def apply_genre_allocation (tracks : List AllocTrack) (target_size : Nat)
    (diversity_floor_pct : Option Int) : List AllocTrack :=
  if tracks = [] then []
  else
    let genre_counts := group_by_genre tracks
    let allocated :=
      match diversity_floor_pct with
      | some v =>
          if v == 0 then even_allocation genre_counts target_size
          else floor_allocation genre_counts target_size v
      | none => even_allocation genre_counts target_size
    (sort_desc (fun t => t.score) allocated).take target_size

/-- C7: for every input track list, target size and floor percentage (or no
floor), the allocator's output has length at most `target_size` and is sorted
descending by score (the final step sorts the allocated set descending and
truncates, under both the floor policy and the even-distribution policy). -/
theorem c7_allocator_size_bound_and_sorted (tracks : List AllocTrack)
    (target_size : Nat) (diversity_floor_pct : Option Int) :
    (apply_genre_allocation tracks target_size diversity_floor_pct).length ≤ target_size ∧
    List.Pairwise (fun a b => b.score ≤ a.score)
      (apply_genre_allocation tracks target_size diversity_floor_pct) := by
  unfold apply_genre_allocation
  split
  · simp
  · constructor
    · exact List.length_take_le _ _
    · exact (pairwise_sort_desc (fun t : AllocTrack => t.score) _).sublist
        (List.take_sublist _ _)

/-- C10: a diversity floor of `0` is falsy in `if diversity_floor_pct:`, so it
selects the even-distribution policy, exactly as passing no floor at all; the
two calls return identical results. -/
theorem c10_zero_floor_is_no_floor (tracks : List AllocTrack) (target_size : Nat) :
    apply_genre_allocation tracks target_size (some 0) =
      apply_genre_allocation tracks target_size none := rfl

/-! ### Scorer (`TrackSelector.calculate_track_scores`) -/

/-- The `'album'` sub-dict of a track record; `release_date` is read with
`.get('release_date', '')`. -/
structure SAlbum where
  release_date : Option String := none
deriving DecidableEq

/-- A track record as seen by the scorer: `id` is a required key (read with a
raising subscript), `popularity` is read with `.get('popularity', 0)`,
`album` is read with the raising subscript `track['album']`, and `score` is
the key the scorer assigns. -/
structure ScoreTrack where
  id : String
  popularity : Option Int := none
  album : Option SAlbum := none
  score : Option ℚ := none
deriving DecidableEq

/-- An entry of a previous snapshot's track list; both keys are read with
`.get`. -/
structure PrevTrack where
  id : Option String := none
  popularity : Option Int := none
deriving DecidableEq

/-- The dynamically typed `previous_snapshot` argument.  The scorer's guard is
`if previous_snapshot and isinstance(previous_snapshot, dict)` followed by
`previous_snapshot.get('tracks', [])` with an `isinstance(…, list)` check, so
the only shape that triggers a delta lookup is a dict with a list under
`'tracks'`; `pyDictNoTracks` stands for any dict without such a list. -/
inductive PySnapshot where
  | pyNone : PySnapshot
  | pyList : List PrevTrack → PySnapshot
  | pyDictTracks : List PrevTrack → PySnapshot
  | pyDictNoTracks : PySnapshot
deriving DecidableEq

/-- The configured `scoring.weights` dict; each weight is read with `.get`
with the defaults visible in the score expression. -/
structure ScoringWeights where
  popularity : Option ℚ := none
  popularity_delta : Option ℚ := none
  recency_boost : Option ℚ := none
deriving DecidableEq

/-- `popularity = track.get('popularity', 0) / 100.0`. -/
def popularity_norm (track : ScoreTrack) : ℚ := (track.popularity.getD 0 : ℚ) / 100

/-- The popularity-delta component: the signed difference of normalized
popularities when the previous snapshot is a dict holding a track list that
contains an entry with the same id, else `0`. -/
def popularity_delta_of (previous_snapshot : PySnapshot) (track : ScoreTrack) : ℚ :=
  match previous_snapshot with
  | .pyDictTracks tracks_list =>
      match tracks_list.find? (fun t => t.id == some track.id) with
      | some prev_track => popularity_norm track - (prev_track.popularity.getD 0 : ℚ) / 100
      | none => 0
  | _ => 0

/-- Model of `datetime.strptime(s, '%Y-%m-%d')`: three dash-separated decimal
fields with the month in `1..12` and the day in `1..31`; `none` when the
string does not parse. -/
def parse_release_date (s : String) : Option (Nat × Nat × Nat) :=
  match s.splitOn "-" with
  | [y, m, d] =>
      match y.toNat?, m.toNat?, d.toNat? with
      | some yn, some mn, some dn =>
          if y ≠ "" ∧ m ≠ "" ∧ d ≠ "" ∧ 1 ≤ mn ∧ mn ≤ 12 ∧ 1 ≤ dn ∧ dn ≤ 31 then
            some (yn, mn, dn)
          else none
      | _, _, _ => none
  | _ => none

/-- Model of the day count of a parsed date, used only through differences and
comparisons (`(datetime.now() - release_dt).days`). -/
def date_to_days (d : Nat × Nat × Nat) : Int :=
  366 * (d.1 : Int) + 31 * ((d.2.1 : Int) - 1) + (d.2.2 : Int)

/-- The recency-boost step function of `calculate_track_scores`: the whole
computation sits in a `try` whose `except` leaves the boost at `0`, and an
empty `release_date` string is falsy, so a missing, empty or unparsable
release date yields `0`.  `now_days` models `datetime.now()` in days. -/
def recency_boost_of (playlist_type : String) (now_days : Int) (album : SAlbum) : ℚ :=
  let release_date := album.release_date.getD ""
  if release_date = "" then 0
  else
    match parse_release_date release_date with
    | none => 0
    | some d =>
        let days_old := now_days - date_to_days d
        if playlist_type = "daily" ∧ days_old ≤ 1 then 15/100
        else if playlist_type = "weekly" ∧ days_old ≤ 7 then 12/100
        else if playlist_type = "monthly" ∧ days_old ≤ 30 then 10/100
        else if playlist_type = "yearly" ∧ days_old ≤ 365 then 8/100
        else 0

/-- The period-specific remap of the copied weights dict
(`weights = self.scoring_weights.copy()` followed by per-period overrides of
`recency_boost` and `popularity`). -/
def effective_weights (w : ScoringWeights) (playlist_type : String) : ScoringWeights :=
  if playlist_type = "daily" then
    { w with recency_boost := some (20/100), popularity := some (50/100) }
  else if playlist_type = "weekly" then
    { w with recency_boost := some (15/100), popularity := some (55/100) }
  else if playlist_type = "monthly" then
    { w with recency_boost := some (10/100), popularity := some (55/100) }
  else if playlist_type = "yearly" then
    { w with recency_boost := some (8/100), popularity := some (60/100) }
  else w

/-- The final score expression, with the `.get` defaults of the source and
the fixed `0.05 * 0.5` audio-feature term. -/
def final_score (w : ScoringWeights) (popularity popularity_delta recency_boost : ℚ) : ℚ :=
  w.popularity.getD (55/100) * popularity +
    w.popularity_delta.getD (30/100) * popularity_delta +
    w.recency_boost.getD (10/100) * recency_boost +
    (5/100) * (1/2)

/-- Scoring of one track in the loop body of `calculate_track_scores`; the
subscript `track['album']` raises `KeyError` when the record has no album. -/
def score_one_track (w : ScoringWeights) (previous_snapshot : PySnapshot)
    (playlist_type : String) (now_days : Int) (track : ScoreTrack) :
    Except String ScoreTrack :=
  let popularity := popularity_norm track
  let popularity_delta := popularity_delta_of previous_snapshot track
  match track.album with
  | none => .error "KeyError: album"
  | some album =>
      let recency_boost := recency_boost_of playlist_type now_days album
      let weights := effective_weights w playlist_type
      .ok { track with
            score := some (final_score weights popularity popularity_delta recency_boost) }

/-- The scoring loop; an exception on any track propagates out of the loop. -/
def score_all (w : ScoringWeights) (previous_snapshot : PySnapshot)
    (playlist_type : String) (now_days : Int) :
    List ScoreTrack → Except String (List ScoreTrack)
  | [] => .ok []
  | track :: tracks => do
      let t ← score_one_track w previous_snapshot playlist_type now_days track
      let ts ← score_all w previous_snapshot playlist_type now_days tracks
      .ok (t :: ts)

/-- `TrackSelector.calculate_track_scores`: score every track, then sort
descending by `x['score']` (every scored track carries a score, so the
raising subscript is modelled by `getD 0`). -/
def calculate_track_scores (w : ScoringWeights) (previous_snapshot : PySnapshot)
    (playlist_type : String) (now_days : Int) (tracks : List ScoreTrack) :
    Except String (List ScoreTrack) :=
  if tracks = [] then .ok []
  else do
    let scored ← score_all w previous_snapshot playlist_type now_days tracks
    .ok (sort_desc (fun t => t.score.getD 0) scored)

/-- The recency component of a track record (its album's step-function value;
a record without an album never reaches this computation). -/
def recency_of_track (playlist_type : String) (now_days : Int) (track : ScoreTrack) : ℚ :=
  match track.album with
  | some album => recency_boost_of playlist_type now_days album
  | none => 0

theorem score_all_mem (w : ScoringWeights) (snap : PySnapshot) (ptype : String)
    (now : Int) (tracks scored : List ScoreTrack)
    (h : score_all w snap ptype now tracks = .ok scored) :
    ∀ t ∈ scored, ∃ t₀, score_one_track w snap ptype now t₀ = .ok t := by
  induction tracks generalizing scored with
  | nil =>
    simp only [score_all] at h
    cases h
    simp
  | cons x xs ih =>
    simp only [score_all, bind, Except.bind] at h
    cases hx : score_one_track w snap ptype now x with
    | error e => rw [hx] at h; cases h
    | ok t' =>
      rw [hx] at h
      cases hxs : score_all w snap ptype now xs with
      | error e => rw [hxs] at h; cases h
      | ok ts' =>
        rw [hxs] at h
        cases h
        intro t ht
        rcases List.mem_cons.mp ht with rfl | ht
        · exact ⟨x, hx⟩
        · exact ih ts' hxs t ht

/-- C1: for every input track list, previous snapshot and period, the scorer
assigns each output track the final score
`w_pop * popularity + w_delta * popularity_delta + w_recency * recency_boost + 0.025`,
where `popularity` is the raw popularity divided by 100, the popularity and
recency weights come from the fixed per-period table (daily `0.50`/`0.20`,
weekly `0.55`/`0.15`, monthly `0.55`/`0.10`, yearly `0.60`/`0.08`) and the
popularity-delta weight stays at its configured default `0.30` (the config
does not override it). -/
theorem c1_score_formula_per_period (w : ScoringWeights) (snap : PySnapshot)
    (ptype : String) (now : Int) (tracks outs : List ScoreTrack)
    (hdelta : w.popularity_delta = none)
    (hok : calculate_track_scores w snap ptype now tracks = .ok outs) :
    ∀ t ∈ outs,
      (ptype = "daily" → t.score = some ((50/100) * popularity_norm t +
        (30/100) * popularity_delta_of snap t +
        (20/100) * recency_of_track ptype now t + 25/1000)) ∧
      (ptype = "weekly" → t.score = some ((55/100) * popularity_norm t +
        (30/100) * popularity_delta_of snap t +
        (15/100) * recency_of_track ptype now t + 25/1000)) ∧
      (ptype = "monthly" → t.score = some ((55/100) * popularity_norm t +
        (30/100) * popularity_delta_of snap t +
        (10/100) * recency_of_track ptype now t + 25/1000)) ∧
      (ptype = "yearly" → t.score = some ((60/100) * popularity_norm t +
        (30/100) * popularity_delta_of snap t +
        (8/100) * recency_of_track ptype now t + 25/1000)) := by
  unfold calculate_track_scores at hok
  split at hok
  · cases hok
    simp
  · simp only [bind, Except.bind] at hok
    cases hsc : score_all w snap ptype now tracks with
    | error e => rw [hsc] at hok; cases hok
    | ok scored =>
      rw [hsc] at hok
      cases hok
      intro t ht
      have ht' : t ∈ scored := (mem_sort_desc _ scored t).mp ht
      obtain ⟨t₀, h1⟩ := score_all_mem w snap ptype now tracks scored hsc t ht'
      unfold score_one_track at h1
      cases halb : t₀.album with
      | none => rw [halb] at h1; cases h1
      | some album =>
        rw [halb] at h1
        cases h1
        refine ⟨?_, ?_, ?_, ?_⟩ <;> intro hp <;> subst hp <;>
          simp [popularity_norm, popularity_delta_of, recency_of_track, halb,
            effective_weights, final_score, hdelta] <;> ring

instance exceptDecEq {ε α : Type} [DecidableEq ε] [DecidableEq α] :
    DecidableEq (Except ε α) := fun
  | .error e₁, .error e₂ =>
      if h : e₁ = e₂ then .isTrue (by rw [h])
      else .isFalse (fun hc => by cases hc; exact h rfl)
  | .error _, .ok _ => .isFalse (fun hc => by cases hc)
  | .ok _, .error _ => .isFalse (fun hc => by cases hc)
  | .ok a₁, .ok a₂ =>
      if h : a₁ = a₂ then .isTrue (by rw [h])
      else .isFalse (fun hc => by cases hc; exact h rfl)

/-- Concrete input for exercising the scorer: popularity 80, an album whose
release date is the empty string. -/
def c1_track : ScoreTrack :=
  { id := "t1", popularity := some 80, album := some { release_date := some "" } }

/-- The scored form of `c1_track` under the daily weight table:
`0.50 * 0.80 + 0.30 * 0 + 0.20 * 0 + 0.025 = 0.425 = 17/40`. -/
def c1_scored : ScoreTrack := { c1_track with score := some (17/40) }

theorem c1_witness :
    c1_scored.score = some ((50/100) * popularity_norm c1_scored +
      (30/100) * popularity_delta_of PySnapshot.pyNone c1_scored +
      (20/100) * recency_of_track "daily" 1000 c1_scored + 25/1000) := by
  have hok : calculate_track_scores {} PySnapshot.pyNone "daily" 1000 [c1_track] =
      .ok [c1_scored] := by
    simp only [calculate_track_scores, score_all, score_one_track, bind, Except.bind,
      c1_track, c1_scored, final_score, effective_weights, popularity_norm,
      popularity_delta_of, recency_boost_of, sort_desc, insert_desc]
    norm_num
  exact ((c1_score_formula_per_period {} PySnapshot.pyNone "daily" 1000
      [c1_track] [c1_scored] rfl hok) c1_scored (List.mem_singleton.mpr rfl)).1 rfl

/-! ### Snapshot round-trip (`PlaylistManager._save_snapshot` /
`_get_latest_snapshot`) -/

/-- `_save_snapshot` stores `json.dumps(tracks)` in the `tracks_data` column:
a bare JSON list (only the side JSON file wraps it in a dict with a `tracks`
key).  `_get_latest_snapshot` returns `json.loads` of that column, hence a
bare Python list. -/
def saved_snapshot_db_value (tracks : List PrevTrack) : PySnapshot :=
  PySnapshot.pyList tracks

/-- `_get_latest_snapshot`: the stored rows ordered latest-first; the latest
row's `tracks_data` is parsed back, `none` when no snapshot exists. -/
def get_latest_snapshot (stored_rows : List (List PrevTrack)) : Option PySnapshot :=
  stored_rows.head?.map saved_snapshot_db_value

/-- C4 (code evaluated at the failing input): a snapshot containing track
`t1` with popularity 50 is saved and read back; the read-back value is a bare
list, so the scorer's `isinstance(previous_snapshot, dict)` guard fails and
the popularity delta for the current `t1` (popularity 90) is `0`, not the
signed difference `0.4` that the same data produces in the dict shape the
scorer expects (and that `_save_snapshot` writes to the JSON file). -/
theorem c4_delta_lost_in_db_roundtrip :
    get_latest_snapshot [[{ id := some "t1", popularity := some 50 }]] =
      some (PySnapshot.pyList [{ id := some "t1", popularity := some 50 }]) ∧
    popularity_delta_of (PySnapshot.pyList [{ id := some "t1", popularity := some 50 }])
      { id := "t1", popularity := some 90 } = 0 ∧
    popularity_norm { id := "t1", popularity := some 90 } -
      ((50 : ℚ) / 100) = 2/5 ∧
    (0 : ℚ) ≠ 2/5 ∧
    popularity_delta_of (PySnapshot.pyDictTracks [{ id := some "t1", popularity := some 50 }])
      { id := "t1", popularity := some 90 } = 2/5 := by
  refine ⟨rfl, rfl, ?_, by norm_num, ?_⟩
  · simp only [popularity_norm]
    norm_num
  · simp only [popularity_delta_of, popularity_norm, List.find?]
    norm_num

/-- C5 counterexample: a track record lacking album metadata makes the scorer
raise (`track['album']` is a raising subscript outside the `try`), instead of
being scored with recency 0 and included in the returned list. -/
theorem c5_counterexample :
    calculate_track_scores {} PySnapshot.pyNone "daily" 1000
      [{ id := "t2", popularity := some 70 }] = .error "KeyError: album" := by
  simp [calculate_track_scores, score_all, score_one_track, bind, Except.bind]

/-- C5 (amended): a track whose album metadata lacks a release date (or whose
release date is empty or unparsable) does not abort scoring: it receives
recency component 0 and is still scored and returned; but a track record
lacking the `album` key entirely raises `KeyError` and aborts the scorer. -/
theorem c5_amended_recency_zero (w : ScoringWeights) (snap : PySnapshot)
    (ptype : String) (now : Int) (t : ScoreTrack) (album : SAlbum)
    (halb : t.album = some album)
    (hdate : album.release_date.getD "" = "" ∨
      parse_release_date (album.release_date.getD "") = none) :
    recency_of_track ptype now t = 0 ∧
    score_one_track w snap ptype now t =
      .ok { t with score := some (final_score (effective_weights w ptype)
        (popularity_norm t) (popularity_delta_of snap t) 0) } ∧
    calculate_track_scores w snap ptype now [t] =
      .ok [{ t with score := some (final_score (effective_weights w ptype)
        (popularity_norm t) (popularity_delta_of snap t) 0) }] := by
  have hrec : recency_boost_of ptype now album = 0 := by
    unfold recency_boost_of
    rcases hdate with h | h
    · simp [h]
    · by_cases he : album.release_date.getD "" = ""
      · simp [he]
      · simp [he, h]
  refine ⟨?_, ?_, ?_⟩
  · simp [recency_of_track, halb, hrec]
  · simp [score_one_track, halb, hrec]
  · simp [calculate_track_scores, score_all, score_one_track, halb, hrec,
      bind, Except.bind, sort_desc, insert_desc]

/-- Concrete track with an album that has no release date. -/
def c5_track_no_date : ScoreTrack :=
  { id := "t3", popularity := some 60, album := some {} }

theorem c5_witness :
    recency_of_track "weekly" 500 c5_track_no_date = 0 ∧
    score_one_track {} PySnapshot.pyNone "weekly" 500 c5_track_no_date =
      .ok { c5_track_no_date with
            score := some (final_score (effective_weights {} "weekly")
              (popularity_norm c5_track_no_date)
              (popularity_delta_of PySnapshot.pyNone c5_track_no_date) 0) } ∧
    calculate_track_scores {} PySnapshot.pyNone "weekly" 500 [c5_track_no_date] =
      .ok [{ c5_track_no_date with
             score := some (final_score (effective_weights {} "weekly")
               (popularity_norm c5_track_no_date)
               (popularity_delta_of PySnapshot.pyNone c5_track_no_date) 0) }] :=
  c5_amended_recency_zero {} PySnapshot.pyNone "weekly" 500 c5_track_no_date {}
    rfl (Or.inl rfl)

/-! ### Artist caps (`TrackSelector.apply_artist_caps` and
`TrackSelector._apply_artist_caps`) -/

/-- An artist entry of a track's `artists` list; both keys optional. -/
structure Artist where
  id : Option String := none
  name : Option String := none
deriving DecidableEq

/-- A track as seen by the two artist-cap filters; `artists` is optional
because `_apply_artist_caps` reads it with `.get('artists', [{}])`. -/
structure CapTrack where
  title : Option String := none
  artists : Option (List Artist) := none
deriving DecidableEq

/-- `track['artists'][0]['id']`: raising subscripts at every step. -/
def primary_artist_id (t : CapTrack) : Except String String :=
  match t.artists with
  | none => .error "KeyError: artists"
  | some [] => .error "IndexError: artists"
  | some (a :: _) =>
      match a.id with
      | none => .error "KeyError: id"
      | some i => .ok i

/-- `track.get('artists', [{}])[0].get('name', 'Unknown')`: a missing
`artists` key falls back to `[{}]` whose first entry yields `'Unknown'`, but a
present-and-empty list raises `IndexError`. -/
def primary_artist_name (t : CapTrack) : Except String String :=
  match t.artists with
  | none => .ok "Unknown"
  | some [] => .error "IndexError: artists"
  | some (a :: _) => .ok (a.name.getD "Unknown")

/-- The shared loop shape of both cap filters: evaluate the per-track key,
keep the track while its key's counter is below the cap, then increment. -/
def cap_loop (key : α → Except String String) (cap : Nat) :
    List α → (String → Nat) → Except String (List α)
  | [], _ => .ok []
  | t :: ts, counts =>
      match key t with
      | .error e => .error e
      | .ok k =>
          if counts k < cap then
            match cap_loop key cap ts (Function.update counts k (counts k + 1)) with
            | .error e => .error e
            | .ok rest => .ok (t :: rest)
          else
            cap_loop key cap ts counts

/-- `TrackSelector.apply_artist_caps` (keyed by primary artist id). -/
def apply_artist_caps (tracks : List CapTrack) (artist_cap : Nat) :
    Except String (List CapTrack) :=
  if tracks = [] then .ok []
  else cap_loop primary_artist_id artist_cap tracks (fun _ => 0)

/-- `TrackSelector._apply_artist_caps` (keyed by primary artist name). -/
def apply_artist_caps_by_name (tracks : List CapTrack) (max_per_artist : Nat) :
    Except String (List CapTrack) :=
  cap_loop primary_artist_name max_per_artist tracks (fun _ => 0)

theorem cap_loop_sublist (key : α → Except String String) (cap : Nat)
    (ts : List α) (counts : String → Nat) (out : List α)
    (h : cap_loop key cap ts counts = .ok out) : out.Sublist ts := by
  induction ts generalizing counts out with
  | nil =>
    simp only [cap_loop] at h
    cases h
    exact List.Sublist.refl []
  | cons t ts ih =>
    simp only [cap_loop] at h
    cases hk : key t with
    | error e => simp only [hk] at h; cases h
    | ok k =>
      simp only [hk] at h
      split at h
      · cases hrest : cap_loop key cap ts (Function.update counts k (counts k + 1)) with
        | error e => simp only [hrest] at h; cases h
        | ok rest =>
          simp only [hrest] at h
          cases h
          exact (ih _ rest hrest).cons₂ t
      · exact (ih _ out h).cons t

theorem cap_loop_count (key : α → Except String String) (cap : Nat)
    (ts : List α) (counts : String → Nat) (out : List α)
    (h : cap_loop key cap ts counts = .ok out) (k : String) :
    (out.filter (fun t => (key t).toOption == some k)).length ≤ cap - counts k := by
  induction ts generalizing counts out with
  | nil =>
    simp only [cap_loop] at h
    cases h
    simp
  | cons t ts ih =>
    simp only [cap_loop] at h
    cases hk : key t with
    | error e => simp only [hk] at h; cases h
    | ok k' =>
      simp only [hk] at h
      split at h
      · cases hrest : cap_loop key cap ts (Function.update counts k' (counts k' + 1)) with
        | error e => simp only [hrest] at h; cases h
        | ok rest =>
          simp only [hrest] at h
          cases h
          have hr := ih _ rest hrest
          by_cases hkk : k' = k
          · subst hkk
            rw [Function.update_same] at hr
            have hlt : counts k' < cap := by assumption
            have hpt : ((key t).toOption == some k') = true := by
              simp [hk, Except.toOption]
            simp only [List.filter_cons, hpt, if_true, List.length_cons]
            omega
          · rw [Function.update_noteq (Ne.symm hkk)] at hr
            have hpf : ((key t).toOption == some k) = false := by
              simp [hk, Except.toOption, hkk]
            simp only [List.filter_cons, hpf, Bool.false_eq_true, if_false]
            exact hr
      · have hr := ih _ out h
        exact hr

/-- C6: for every input track list and every cap, both artist-cap filters, on
success, return at most `cap` tracks per primary artist (`apply_artist_caps`
keyed by primary artist id, `_apply_artist_caps` keyed by primary artist
name), and the kept tracks form a sublist of the input, i.e. appear in their
original relative order. -/
theorem c6_artist_cap_invariant :
    (∀ (tracks : List CapTrack) (cap : Nat) (out : List CapTrack),
      apply_artist_caps tracks cap = .ok out →
        out.Sublist tracks ∧
        ∀ aid : String,
          (out.filter (fun t => (primary_artist_id t).toOption == some aid)).length ≤ cap) ∧
    (∀ (tracks : List CapTrack) (cap : Nat) (out : List CapTrack),
      apply_artist_caps_by_name tracks cap = .ok out →
        out.Sublist tracks ∧
        ∀ nm : String,
          (out.filter (fun t => (primary_artist_name t).toOption == some nm)).length ≤ cap) := by
  constructor
  · intro tracks cap out h
    unfold apply_artist_caps at h
    split at h
    · cases h
      subst_vars
      simp
    · refine ⟨cap_loop_sublist _ _ _ _ _ h, fun aid => ?_⟩
      have := cap_loop_count primary_artist_id cap tracks (fun _ => 0) out h aid
      simpa using this
  · intro tracks cap out h
    unfold apply_artist_caps_by_name at h
    refine ⟨cap_loop_sublist _ _ _ _ _ h, fun nm => ?_⟩
    have := cap_loop_count primary_artist_name cap tracks (fun _ => 0) out h nm
    simpa using this

/-- Concrete tracks: two by artist `ar1`, one by artist `ar2`. -/
def c6_a1 : CapTrack :=
  { title := some "A1", artists := some [{ id := some "ar1", name := some "Artist1" }] }

def c6_a2 : CapTrack :=
  { title := some "A2", artists := some [{ id := some "ar1", name := some "Artist1" }] }

def c6_b1 : CapTrack :=
  { title := some "B1", artists := some [{ id := some "ar2", name := some "Artist2" }] }

theorem c6_witness :
    ([c6_a1, c6_b1].Sublist [c6_a1, c6_a2, c6_b1]) ∧
    ([c6_a1, c6_b1].filter
      (fun t => (primary_artist_id t).toOption == some "ar1")).length ≤ 1 :=
  have h := c6_artist_cap_invariant.1 [c6_a1, c6_a2, c6_b1] 1 [c6_a1, c6_b1] (by decide)
  ⟨h.1, h.2 "ar1"⟩

/-! ### Dedup against existing playlist contents (`TrackSelector.dedupe_tracks`) -/

/-- A candidate track as seen by `dedupe_tracks`; its identifier is read with
the raising subscript `track['id']`, modelled as a required field. -/
structure DedupTrack where
  id : String
  title : Option String := none
deriving DecidableEq

/-- One entry of the existing playlist contents.  The guard
`if track and 'track' in track and track['track'] and 'id' in track['track']`
distinguishes a `None` entry, a dict without a `'track'` key, a falsy
`'track'` value, and a track dict with an optional `'id'`. -/
inductive ExistingItem where
  | nullItem : ExistingItem
  | noTrackKey : ExistingItem
  | nullTrack : ExistingItem
  | withTrack : Option String → ExistingItem
deriving DecidableEq

/-- The `existing_ids` set: ids of the well-formed existing entries (a list
with the same membership as the Python set). -/
def existing_ids (existing_tracks : List ExistingItem) : List String :=
  existing_tracks.filterMap (fun item =>
    match item with
    | .withTrack (some i) => some i
    | _ => none)

/-- `TrackSelector.dedupe_tracks`: the `dedupe_days` parameter is accepted but
never read. -/
def dedupe_tracks (tracks : List DedupTrack) (existing_tracks : List ExistingItem)
    (dedupe_days : Int) : List DedupTrack :=
  if existing_tracks = [] then tracks
  else tracks.filter (fun t => !(existing_ids existing_tracks).contains t.id)

/-- C9: for every candidate list, existing contents and `dedupe_days` value,
deduplication returns exactly the candidates whose identifier is absent from
the existing-contents identifier set, in their original order (a `filter`),
and the result does not depend on `dedupe_days` (no recency bounding). -/
theorem c9_dedupe_filter_and_days_independent (tracks : List DedupTrack)
    (existing_tracks : List ExistingItem) (dedupe_days : Int) :
    dedupe_tracks tracks existing_tracks dedupe_days =
      tracks.filter (fun t => !(existing_ids existing_tracks).contains t.id) ∧
    dedupe_tracks tracks existing_tracks dedupe_days =
      dedupe_tracks tracks existing_tracks 0 := by
  unfold dedupe_tracks
  split
  · subst_vars
    simp [existing_ids]
  · simp

/-! ### Test-surface selection pipeline
(`TrackSelector.select_tracks_for_playlist`) -/

/-- A track record as seen by the simplified selection pipeline; every key is
read with `.get` except inside `_apply_artist_caps` (see
`primary_sel_artist_name`). -/
structure SelTrack where
  id : Option String := none
  title : Option String := none
  artists : Option (List Artist) := none
  popularity : Option Int := none
  explicit : Option Bool := none
  score : Option Int := none
deriving DecidableEq

/-- Assoc-list lookup modelling a Python dict `.get(key, default)` read. -/
def lookup_str (entries : List (String × α)) (k : String) : Option α :=
  (entries.find? (fun e => e.1 == k)).map (fun e => e.2)

/-- The configuration keys read by the selection pipeline. -/
structure SelectConfig where
  seeding : List (String × List String) := []
  artist_caps : List (String × Nat) := []

/-- The external search collaborator (`spotify_client.search_tracks`), which
may raise. -/
structure SelectEnv where
  search : String → Nat → Except String (List SelTrack)

/-- `TrackSelector._search_tracks_by_artist`: catches its own errors and
degrades to an empty list. -/
def search_tracks_by_artist (env : SelectEnv) (artist : String) (limit : Nat) :
    List SelTrack :=
  match env.search ("artist:" ++ artist) limit with
  | .ok tracks => tracks
  | .error _ => []

/-- `TrackSelector._filter_tracks_by_popularity`:
`track.get('popularity', 0) >= min_popularity`. -/
def filter_tracks_by_popularity (tracks : List SelTrack) (min_popularity : Int) :
    List SelTrack :=
  tracks.filter (fun t => min_popularity ≤ t.popularity.getD 0)

/-- `TrackSelector._filter_tracks_by_explicit`: with `max_explicit=False`,
drop tracks whose `explicit` flag (default false) is set. -/
def filter_tracks_by_explicit (tracks : List SelTrack) (max_explicit : Bool) :
    List SelTrack :=
  if max_explicit then tracks else tracks.filter (fun t => !(t.explicit.getD false))

/-- The per-track key of `_apply_artist_caps` on this record shape:
`track.get('artists', [{}])[0].get('name', 'Unknown')`. -/
def primary_sel_artist_name (t : SelTrack) : Except String String :=
  match t.artists with
  | none => .ok "Unknown"
  | some [] => .error "IndexError: artists"
  | some (a :: _) => .ok (a.name.getD "Unknown")

/-- `TrackSelector._deduplicate_tracks`: keep the first occurrence of each
truthy id (`if track_id and track_id not in seen_ids`). -/
def deduplicate_sel_tracks : List SelTrack → List String → List SelTrack
  | [], _ => []
  | t :: ts, seen =>
      match t.id with
      | some i =>
          if i ≠ "" ∧ !seen.contains i then
            t :: deduplicate_sel_tracks ts (i :: seen)
          else deduplicate_sel_tracks ts seen
      | none => deduplicate_sel_tracks ts seen

/-- `TrackSelector._score_tracks`: assign `score := popularity` (default 0)
and sort descending by `x.get('score', 0)`. -/
def score_tracks_simple (tracks : List SelTrack) : List SelTrack :=
  sort_desc (fun t => ((t.score.getD 0 : Int) : ℚ))
    (tracks.map (fun t => { t with score := some (t.popularity.getD 0) }))

/-- The `try` block of `select_tracks_for_playlist`: seed by configured
artists, filter by popularity (floor 50) and explicit content, cap per artist
(config default 5), deduplicate, score, truncate to `target_size`. -/
def select_body (cfg : SelectConfig) (env : SelectEnv) (playlist_type : String)
    (target_size : Nat) : Except String (List SelTrack) :=
  let seeding_artists := (lookup_str cfg.seeding playlist_type).getD []
  let tracks := seeding_artists.flatMap (fun a => search_tracks_by_artist env a 10)
  let tracks := filter_tracks_by_popularity tracks 50
  let tracks := filter_tracks_by_explicit tracks false
  let artist_cap := (lookup_str cfg.artist_caps playlist_type).getD 5
  match cap_loop primary_sel_artist_name artist_cap tracks (fun _ => 0) with
  | .error e => .error e
  | .ok capped =>
      let deduped := deduplicate_sel_tracks capped []
      let scored := score_tracks_simple deduped
      .ok (scored.take target_size)

/-- `TrackSelector.select_tracks_for_playlist`: the whole body sits inside
`try… except Exception: return []`. -/
def select_tracks_for_playlist (cfg : SelectConfig) (env : SelectEnv)
    (playlist_type : String) (target_size : Nat) : List SelTrack :=
  match select_body cfg env playlist_type target_size with
  | .ok tracks => tracks
  | .error _ => []

/-- A malformed track whose `artists` list is present but empty: it survives
the popularity and explicit filters and then makes `_apply_artist_caps`
raise `IndexError`. -/
def c8_bad_track : SelTrack :=
  { id := some "t9", artists := some [], popularity := some 60, explicit := some false }

/-- The concrete environment for the C8 counterexample: one seeded artist
whose search returns the malformed track. -/
def c8_env : SelectEnv := { search := fun _ _ => .ok [c8_bad_track] }

/-- The concrete configuration for the C8 counterexample. -/
def c8_cfg : SelectConfig := { seeding := [("p1", ["ArtistX"])] }

/-- C8 counterexample: an exception raised inside a pure selection stage
(`IndexError` in `_apply_artist_caps`) does not propagate to the caller; the
`except Exception` handler converts it into an empty result. -/
theorem c8_counterexample :
    select_body c8_cfg c8_env "p1" 10 = .error "IndexError: artists" ∧
    select_tracks_for_playlist c8_cfg c8_env "p1" 10 = [] := by
  constructor <;> decide

/-- C8 (amended): any exception raised inside the selection stages is caught
by `select_tracks_for_playlist` and converted into an empty result instead of
propagating to the caller. -/
theorem c8_amended_exceptions_become_empty (cfg : SelectConfig) (env : SelectEnv)
    (playlist_type : String) (target_size : Nat) (e : String)
    (h : select_body cfg env playlist_type target_size = .error e) :
    select_tracks_for_playlist cfg env playlist_type target_size = [] := by
  unfold select_tracks_for_playlist
  rw [h]

theorem c8_witness : select_tracks_for_playlist c8_cfg c8_env "p1" 10 = [] :=
  c8_amended_exceptions_become_empty c8_cfg c8_env "p1" 10
    "IndexError: artists" (by decide)

/-! ### Playlist update state machine (`PlaylistManager.update_playlist`) -/

/-- One row of the `playlist_runs` table as written by `_log_run`. -/
structure RunRecord where
  playlist_type : String
  tracks_count : Nat
  success : Bool
  error_message : Option String := none
deriving DecidableEq

/-- The keys `update_playlist` reads from `playlist_config`:
`.get('logic', 'general')` and `.get('size', 200)`. -/
structure UpdateConfig where
  logic : Option String := none
  size : Option Nat := none
deriving DecidableEq

/-- The outcomes of the collaborator calls made during one update invocation;
an `Option String` field is `some e` when that call raises `e`.  `selected`
is the result of `select_tracks_for_playlist` (tracks represented by their
URIs), which never raises in the source. -/
structure UpdateEnv where
  playlist_id : Option String := none
  snapshot_result : Except String (Option PySnapshot) := .ok none
  fetch_error : Option String := none
  selected : List String := []
  replace_error : Option String := none
  add_error : Option String := none
  refetch_error : Option String := none
  remove_error : Option String := none
  save_snapshot_error : Option String := none

/-- The logic-type branch of `update_playlist`, acting on the external
playlist contents (a list of URIs).  Replace logic clears then inserts;
accumulate logic appends, re-fetches, and when the length exceeds
`size` (default 200) removes the URIs of `current_tracks[max_size:]`
(the external service removes every entry whose URI is listed); fallback
logic plain-appends.  A failing call leaves the contents as committed so
far. -/
def publish_step (cfg : UpdateConfig) (env : UpdateEnv) (contents : List String) :
    Except String Unit × List String :=
  let logic_type := cfg.logic.getD "general"
  if logic_type = "previous_day" ∨ logic_type = "previous_week" then
    match env.replace_error with
    | some e => (.error e, contents)
    | none =>
        match env.add_error with
        | some e => (.error e, [])
        | none => (.ok (), env.selected)
  else if logic_type = "month_to_date" ∨ logic_type = "year_to_date" then
    match env.add_error with
    | some e => (.error e, contents)
    | none =>
        let current_tracks := contents ++ env.selected
        match env.refetch_error with
        | some e => (.error e, current_tracks)
        | none =>
            let max_size := cfg.size.getD 200
            if current_tracks.length > max_size then
              let tracks_to_remove := current_tracks.drop max_size
              match env.remove_error with
              | some e => (.error e, current_tracks)
              | none =>
                  (.ok (), current_tracks.filter (fun u => !tracks_to_remove.contains u))
            else (.ok (), current_tracks)
  else
    match env.add_error with
    | some e => (.error e, contents)
    | none => (.ok (), contents ++ env.selected)

/-- `PlaylistManager.update_playlist` for one invocation: early return without
a run record when no playlist id is mapped or when the selection is empty;
on an exception anywhere in the `try` block, `_log_run` persists one failed
record with the error message and the exception is re-raised; on completion
one success record is persisted.  Returns (outcome, run records written,
final external playlist contents). -/
def update_playlist (playlist_type : String) (cfg : UpdateConfig)
    (env : UpdateEnv) (contents : List String) :
    Except String Unit × List RunRecord × List String :=
  match env.playlist_id with
  | none => (.ok (), [], contents)
  | some _ =>
      match env.snapshot_result with
      | .error e =>
          (.error e, [{ playlist_type, tracks_count := 0, success := false,
                        error_message := some e }], contents)
      | .ok _prev =>
          match env.fetch_error with
          | some e =>
              (.error e, [{ playlist_type, tracks_count := 0, success := false,
                            error_message := some e }], contents)
          | none =>
              if env.selected = [] then (.ok (), [], contents)
              else
                match publish_step cfg env contents with
                | (.error e, c) =>
                    (.error e, [{ playlist_type, tracks_count := 0, success := false,
                                  error_message := some e }], c)
                | (.ok (), c) =>
                    match env.save_snapshot_error with
                    | some e =>
                        (.error e, [{ playlist_type, tracks_count := 0, success := false,
                                      error_message := some e }], c)
                    | none =>
                        (.ok (), [{ playlist_type, tracks_count := env.selected.length,
                                    success := true, error_message := none }], c)

theorem filter_not_contains_append (t d : List String) (hdisj : t.Disjoint d) :
    (t ++ d).filter (fun u => !d.contains u) = t := by
  rw [List.filter_append]
  have ht : t.filter (fun u => !d.contains u) = t :=
    List.filter_eq_self.mpr (fun a ha => by
      have hnd : a ∉ d := fun hd => hdisj ha hd
      simp [List.contains, List.elem_eq_mem, hnd])
  have hd : d.filter (fun u => !d.contains u) = [] :=
    List.filter_eq_nil_iff.mpr (fun a ha => by
      simp [List.contains, List.elem_eq_mem, ha])
  rw [ht, hd, List.append_nil]

/-- A list with no duplicates trimmed at position `n`: removing the entries
whose value occurs beyond position `n` keeps exactly the first `n` entries. -/
theorem filter_not_contains_drop (l : List String) (n : Nat) (h : l.Nodup) :
    l.filter (fun u => !(l.drop n).contains u) = l.take n := by
  have hnd : (l.take n ++ l.drop n).Nodup := by
    rw [List.take_append_drop]; exact h
  have hdisj := (List.nodup_append.mp hnd).2.2
  have key := filter_not_contains_append (l.take n) (l.drop n) hdisj
  rwa [List.take_append_drop] at key

/-- C2: for an update whose logic type is `month_to_date` or `year_to_date`,
with a mapped playlist id, a non-empty selection, no collaborator failure and
distinct URIs, the state machine appends the selected tracks to the existing
contents, re-fetches them, and — the combined length exceeding the configured
target size (default 200) — removes exactly the entries beyond position
`target_size` in the current ordering, persisting one success run record. -/
theorem c2_accumulate_appends_and_trims (ptype : String) (cfg : UpdateConfig)
    (env : UpdateEnv) (contents : List String)
    (hlogic : cfg.logic = some "month_to_date" ∨ cfg.logic = some "year_to_date")
    (hpid : env.playlist_id.isSome = true)
    (hsnap : env.snapshot_result.isOk = true)
    (hfetch : env.fetch_error = none)
    (hsel : env.selected ≠ [])
    (hadd : env.add_error = none)
    (hrefetch : env.refetch_error = none)
    (hremove : env.remove_error = none)
    (hsave : env.save_snapshot_error = none)
    (hnodup : (contents ++ env.selected).Nodup)
    (hlen : (contents ++ env.selected).length > cfg.size.getD 200) :
    update_playlist ptype cfg env contents =
      (.ok (), [{ playlist_type := ptype, tracks_count := env.selected.length,
                  success := true, error_message := none }],
        (contents ++ env.selected).take (cfg.size.getD 200)) := by
  obtain ⟨pid, hpid'⟩ := Option.isSome_iff_exists.mp hpid
  cases hs : env.snapshot_result with
  | error e => rw [hs] at hsnap; simp [Except.isOk, Except.toBool] at hsnap
  | ok p =>
    have hpub : publish_step cfg env contents =
        (.ok (), (contents ++ env.selected).take (cfg.size.getD 200)) := by
      unfold publish_step
      rcases hlogic with h | h <;>
        · rw [h]
          simp only [Option.getD_some]
          rw [if_neg (by decide), if_pos (by decide), hadd, hrefetch,
            if_pos hlen, hremove, filter_not_contains_drop _ _ hnodup]
    unfold update_playlist
    rw [hpid', hs, hfetch, if_neg hsel, hpub, hsave]

theorem nodup_replicate_char (c : Char) (n : Nat) :
    ((List.range n).map (fun i => String.mk (List.replicate (i+1) c))).Nodup := by
  refine List.Nodup.map ?_ (List.nodup_range n)
  intro a b hab
  have h2 := congrArg String.data hab
  simp only [String.data] at h2
  have h3 := congrArg List.length h2
  simp only [List.length_replicate] at h3
  omega

theorem disjoint_replicate_char {c d : Char} (hcd : c ≠ d) (n m : Nat) :
    ((List.range n).map (fun i => String.mk (List.replicate (i+1) c))).Disjoint
      ((List.range m).map (fun i => String.mk (List.replicate (i+1) d))) := by
  intro a ha hb
  simp only [List.mem_map, List.mem_range] at ha hb
  obtain ⟨i, _, hi⟩ := ha
  obtain ⟨j, _, hj⟩ := hb
  have h2 := congrArg String.data (hi.trans hj.symm)
  simp only [String.data] at h2
  rw [List.replicate_succ, List.replicate_succ] at h2
  injection h2 with hhead htail
  exact hcd hhead

/-- An existing monthly playlist of 205 tracks with pairwise distinct URIs. -/
def c2_existing : List String :=
  (List.range 205).map (fun i => String.mk (List.replicate (i+1) 'e'))

/-- Ten freshly selected tracks, distinct from each other and from the
existing contents. -/
def c2_selected : List String :=
  (List.range 10).map (fun i => String.mk (List.replicate (i+1) 's'))

/-- The environment of the C2 scenario: mapped playlist id, ten selected
tracks, no collaborator failure. -/
def c2_env : UpdateEnv := { playlist_id := some "pl-monthly", selected := c2_selected }

/-- Accumulate logic with the default target size 200. -/
def c2_cfg : UpdateConfig := { logic := some "month_to_date" }

theorem c2_nodup : (c2_existing ++ c2_selected).Nodup := by
  rw [List.nodup_append]
  exact ⟨nodup_replicate_char 'e' 205, nodup_replicate_char 's' 10,
    disjoint_replicate_char (by decide) 205 10⟩

theorem c2_witness :
    update_playlist "monthly" c2_cfg c2_env c2_existing =
      (.ok (), [{ playlist_type := "monthly", tracks_count := 10,
                  success := true, error_message := none }],
        (c2_existing ++ c2_selected).take 200) ∧
    ((c2_existing ++ c2_selected).take 200).length = 200 ∧
    (c2_existing ++ c2_selected).length = 215 := by
  have hlen : (c2_existing ++ c2_selected).length = 215 := by
    simp [c2_existing, c2_selected]
  refine ⟨?_, ?_, hlen⟩
  · have h := c2_accumulate_appends_and_trims "monthly" c2_cfg c2_env c2_existing
      (Or.inl rfl) rfl rfl rfl (by simp [c2_env, c2_selected]) rfl rfl rfl rfl
      c2_nodup (by simp [c2_env, c2_cfg, c2_existing, c2_selected])
    simpa [c2_env, c2_cfg, c2_selected] using h
  · rw [List.length_take, hlen]
    decide

/-- C3 counterexample: an update attempt with no mapped playlist id returns
early and writes no run record at all — not exactly one. -/
theorem c3_counterexample :
    (update_playlist "daily" {} {} []).2.1 = [] ∧
    ¬((update_playlist "daily" {} {} []).2.1.length = 1) := by
  constructor <;> decide

/-- C3 (amended): a run record is written exactly once per update attempt
that passes the early-exit guards: an attempt with no mapped playlist id (or
whose selection is empty while no exception occurred) returns normally with
no run record; any exception during the pipeline persists exactly one failed
record carrying the error message before the exception is re-raised; a
completed update persists exactly one success record. -/
theorem c3_amended_run_record_policy (ptype : String) (cfg : UpdateConfig)
    (env : UpdateEnv) (contents : List String) :
    (env.playlist_id = none →
      update_playlist ptype cfg env contents = (.ok (), [], contents)) ∧
    (∀ e, (update_playlist ptype cfg env contents).1 = .error e →
      (update_playlist ptype cfg env contents).2.1 =
        [{ playlist_type := ptype, tracks_count := 0, success := false,
           error_message := some e }]) ∧
    ((update_playlist ptype cfg env contents).1 = .ok () → env.selected = [] →
      (update_playlist ptype cfg env contents).2.1 = []) ∧
    ((update_playlist ptype cfg env contents).1 = .ok () → env.playlist_id ≠ none →
      env.selected ≠ [] →
      (update_playlist ptype cfg env contents).2.1 =
        [{ playlist_type := ptype, tracks_count := env.selected.length,
           success := true, error_message := none }]) := by
  unfold update_playlist
  cases hpid : env.playlist_id with
  | none => simp
  | some pid =>
    cases hs : env.snapshot_result with
    | error e => simp
    | ok p =>
      cases hf : env.fetch_error with
      | some e => simp
      | none =>
        by_cases hsel : env.selected = []
        · simp [hsel]
        · simp only [if_neg hsel]
          rcases hp : publish_step cfg env contents with ⟨o, c⟩
          cases o with
          | error e => simp [hsel]
          | ok u =>
            cases u
            cases hv : env.save_snapshot_error with
            | some e => simp [hsel]
            | none => simp [hsel]

/-- The environment of the C3 witness: a mapped id and one selected track. -/
def c3_env : UpdateEnv := { playlist_id := some "p", selected := ["u1"] }

theorem c3_witness :
    (update_playlist "daily" {} c3_env []).2.1 =
      [{ playlist_type := "daily", tracks_count := 1, success := true,
         error_message := none }] :=
  (c3_amended_run_record_policy "daily" {} c3_env []).2.2.2
    (by decide) (by decide) (by decide)
